import Mathlib

/-!
Verification of the message parser in `src/mpesa_tool.py` of the repository
n-cognto/mpesa-tool.

The parser works by running Python `re` patterns over the raw message text.
This file embeds the relevant fragment of the `re` engine shallowly: every
repetition operator occurring in the source patterns repeats a single-character
atom, so the backtracking behaviour of the engine is captured exactly by an
eager enumeration of all match results in Python's backtracking priority order
(leftmost search position first; within a position, greedy repetitions longest
first, lazy repetitions shortest first, alternation left branch first, optional
groups present-branch first).  `re.search` returns the head of that
enumeration.  Named groups record the consumed substring, with a later capture
of the same name replacing an earlier one, exactly as CPython restores group
marks on backtracking.

All messages considered in this development are ASCII, so the ASCII-only
treatment of case folding, `\d`, and `\s` below coincides with CPython's
behaviour on these inputs.
-/

namespace MpesaTool

/-- Python whitespace characters: the set matched by the regex class `\s` and
stripped by `str.strip()` (ASCII subset; all inputs in this file are ASCII). -/
def isWsChar (c : Char) : Bool :=
  c == ' ' || c == '\t' || c == '\n' || c == '\r' || c == '\x0b' || c == '\x0c'

/-- One item inside a regex character class `[...]`: a literal character, a
range such as `A-Z`, the class `\d`, or the class `\s`. -/
inductive CItem where
  | ch (c : Char)
  | rng (lo hi : Char)
  | dItem
  | sItem

/-- A single-character regex atom: a literal, `\d`, `\s`, `.` (compiled with
`re.DOTALL`, so it matches every character including newlines), or a bracket
class `[...]` / `[^...]`. -/
inductive CAtom where
  | lit (c : Char)
  | digit
  | space
  | any
  | cls (neg : Bool) (items : List CItem)

/-- Membership of a character in one class item. -/
def itemHas : CItem → Char → Bool
  | .ch a, c => a == c
  | .rng lo hi, c => decide (lo.toNat ≤ c.toNat) && decide (c.toNat ≤ hi.toNat)
  | .dItem, c => c.isDigit
  | .sItem, c => isWsChar c

/-- Membership of a character in the contents of a bracket class, under an
optional `re.IGNORECASE` flag.  With the flag set, CPython accepts a character
when the class contains it or its other-cased ASCII form. -/
def clsHas (icase : Bool) (items : List CItem) (c : Char) : Bool :=
  items.any (fun i => itemHas i c) ||
    (icase && (items.any (fun i => itemHas i c.toLower) ||
               items.any (fun i => itemHas i c.toUpper)))

/-- Whether an atom matches one character, under an optional `re.IGNORECASE`
flag.  A negated class `[^...]` rejects a character exactly when the class
contents accept it (case-insensitively when the flag is set). -/
def atomMatch (icase : Bool) : CAtom → Char → Bool
  | .lit a, c => a == c || (icase && a.toLower == c.toLower)
  | .digit, c => c.isDigit
  | .space, c => isWsChar c
  | .any, _ => true
  | .cls neg items, c => if neg then !(clsHas icase items c) else clsHas icase items c

/-- Regex abstract syntax for the fragment used by `src/mpesa_tool.py`.
`rep a lo hi greedy` is a repetition of a single-character atom: it renders
`a*`, `a+`, `a?`, `a{n}`, `a{m,n}` and their lazy variants.  `opt` is a greedy
optional group `(?:...)?` (every optional group in the source is greedy).
`grp` is a named group `(?P<name>...)`; unnamed groups in the source have no
observable effect on `groupdict()` and are not represented. -/
inductive Rx where
  | eps
  | atom (a : CAtom)
  | rep (a : CAtom) (lo : Nat) (hi : Option Nat) (greedy : Bool)
  | seq (r s : Rx)
  | alt (r s : Rx)
  | opt (r : Rx)
  | grp (g : String) (r : Rx)

/-- Captured groups of one match path: group name to consumed characters. -/
abbrev Caps := List (String × List Char)

/-- Record a capture, replacing any earlier capture of the same name (the last
successful capture of a group wins, as in CPython). -/
def setCap (g : String) (v : List Char) : Caps → Caps
  | [] => [(g, v)]
  | (n, w) :: rest => if n == g then (g, v) :: rest else (n, w) :: setCap g v rest

/-- Number of consecutive characters at the head of the input matched by an
atom. -/
def countAtom (icase : Bool) (a : CAtom) : List Char → Nat
  | [] => 0
  | c :: cs => if atomMatch icase a c then countAtom icase a cs + 1 else 0

/-- Candidate repetition counts for `rep a lo hi greedy` when `avail`
consecutive characters match the atom, in backtracking priority order:
greedy repetitions try the longest count first, lazy ones the shortest. -/
def repCounts (lo : Nat) (hi : Option Nat) (greedy : Bool) (avail : Nat) : List Nat :=
  let top := match hi with
    | some h => min h avail
    | none => avail
  if lo ≤ top then
    let ks := (List.range (top + 1 - lo)).map (fun i => lo + i)
    if greedy then ks.reverse else ks
  else []

/-- All ways a regex can match a prefix of the input, in CPython backtracking
priority order.  Each result is the remaining suffix together with the
captures accumulated on that path.  `re` commits to the head of this list. -/
def runs (icase : Bool) : Rx → List Char → Caps → List (List Char × Caps)
  | .eps, s, k => [(s, k)]
  | .atom a, s, k =>
    match s with
    | [] => []
    | c :: t => if atomMatch icase a c then [(t, k)] else []
  | .rep a lo hi g, s, k =>
    (repCounts lo hi g (countAtom icase a s)).map (fun m => (s.drop m, k))
  | .seq r1 r2, s, k => (runs icase r1 s k).flatMap (fun p => runs icase r2 p.1 p.2)
  | .alt r1 r2, s, k => runs icase r1 s k ++ runs icase r2 s k
  | .opt r, s, k => runs icase r s k ++ [(s, k)]
  | .grp g r, s, k =>
    (runs icase r s k).map (fun p => (p.1, setCap g (s.take (s.length - p.1.length)) p.2))

/-- `re.search` semantics: try each start position from the left; at the first
position where the pattern matches, return the matched substring (`group(0)`)
and the captures of the highest-priority match there. -/
def searchFrom (icase : Bool) (r : Rx) : List Char → Option (List Char × Caps)
  | [] =>
    match runs icase r [] [] with
    | p :: _ => some ([], p.2)
    | [] => none
  | c :: t =>
    match runs icase r (c :: t) [] with
    | p :: _ => some ((c :: t).take ((c :: t).length - p.1.length), p.2)
    | [] => searchFrom icase r t

/-- Value of a named group in a search result, mirroring
`match.groupdict()[g]`: `none` both when the search failed and when the group
did not participate in the match. -/
def capOf (r : Option (List Char × Caps)) (g : String) : Option (List Char) :=
  match r with
  | none => none
  | some p => p.2.lookup g

/-- Sequence a list of regexes left to right. -/
def rchain (l : List Rx) : Rx := l.foldr Rx.seq Rx.eps

/-- A literal string, one literal atom per character. -/
def rstr (s : String) : Rx := rchain (s.data.map (fun c => Rx.atom (.lit c)))

/-- A flat alternation `a|b|...`, associated to the right; CPython tries the
alternatives left to right, which binary right-nesting preserves. -/
def raltL : List Rx → Rx
  | [] => Rx.eps
  | [r] => r
  | r :: rest => Rx.alt r (raltL rest)

/-- The atom `\s`. -/
def sp1 : Rx := Rx.atom .space

/-- The fragment `\s+`. -/
def spPlus : Rx := Rx.rep .space 1 none true

/-- The fragment `\s*`. -/
def spStar : Rx := Rx.rep .space 0 none true

/-- The fragment `.*?` (lazy, and spanning newlines because the composite
patterns are compiled with `re.DOTALL`). -/
def dotLazy : Rx := Rx.rep .any 0 none false

/-- The class `[\d,.]` used by every amount capture. -/
def amountCls : CAtom := .cls false [.dItem, .ch ',', .ch '.']

/-- The class `[^0-9]` used by the name captures. -/
def nonDigitCls : CAtom := .cls true [.rng '0' '9']

/-- The class `[^.]`. -/
def notDotCls : CAtom := .cls true [.ch '.']

/-- The class `[^\s]`. -/
def nonSpaceCls : CAtom := .cls true [.sItem]

/-- The class `[^k]`. -/
def notKCls : CAtom := .cls true [.ch 'k']

/-- The class `[A-Z0-9]` of the transaction-identifier capture. -/
def upperAlnumCls : CAtom := .cls false [.rng 'A' 'Z', .rng '0' '9']

/-- The class `[Cc]` of the English confirmation keyword. -/
def ccCls : CAtom := .cls false [.ch 'C', .ch 'c']

/-- The class `[AP]` of the meridiem marker. -/
def apCls : CAtom := .cls false [.ch 'A', .ch 'P']

/-- An amount capture `(?P<g>[\d,.]+)`. -/
def amtGrp (g : String) : Rx := Rx.grp g (Rx.rep amountCls 1 none true)

/-- A digit-run capture `(?P<g>\d+)`. -/
def digitsGrp (g : String) : Rx := Rx.grp g (Rx.rep .digit 1 none true)

/-- The date fragment `\d{1,2}/\d{1,2}/\d{2}` of the Swahili patterns. -/
def dateRx : Rx := rchain [Rx.rep .digit 1 (some 2) true, Rx.atom (.lit '/'),
  Rx.rep .digit 1 (some 2) true, Rx.atom (.lit '/'), Rx.rep .digit 2 (some 2) true]

/-- The time fragment `\d{1,2}:\d{2}\s*[AP]M` of the Swahili patterns. -/
def timeRx : Rx := rchain [Rx.rep .digit 1 (some 2) true, Rx.atom (.lit ':'),
  Rx.rep .digit 2 (some 2) true, spStar, Rx.atom apCls, Rx.atom (.lit 'M')]

/-- Words joined by single `\s` atoms, mirroring phrases such as
`You\shave\sreceived`. -/
def phrW : List String → Rx
  | [] => Rx.eps
  | [w] => rstr w
  | w :: rest => Rx.seq (rstr w) (Rx.seq sp1 (phrW rest))

/-- English RECEIVED pattern (src line 92):
`You\shave\sreceived\sKsh(?P<received_amount>[\d,.]+)\sfrom\s(?P<sender_name>[^0-9]+?)(?:\s(?P<sender_phone>\d+))?`. -/
def rxRECEIVED : Rx := rchain [phrW ["You", "have", "received"], sp1, rstr "Ksh",
  amtGrp "received_amount", sp1, rstr "from", sp1,
  Rx.grp "sender_name" (Rx.rep nonDigitCls 1 none false),
  Rx.opt (Rx.seq sp1 (digitsGrp "sender_phone"))]

/-- English PAID pattern (src line 93):
`Ksh(?P<paid_amount>[\d,.]+)\spaid\sto\s(?P<paid_to>[^.]+)`. -/
def rxPAID : Rx := rchain [rstr "Ksh", amtGrp "paid_amount", sp1,
  rstr "paid", sp1, rstr "to", sp1, Rx.grp "paid_to" (Rx.rep notDotCls 1 none true)]

/-- English SENT pattern (src line 94):
`Ksh(?P<sent_amount>[\d,.]+)\ssent\sto\s(?P<recipient>[^0-9]+?)(?:\sfor\saccount\s(?P<account_number>[^\s]+))?(?:\s(?P<recipient_phone>\d+))?`. -/
def rxSENT : Rx := rchain [rstr "Ksh", amtGrp "sent_amount", sp1,
  rstr "sent", sp1, rstr "to", sp1,
  Rx.grp "recipient" (Rx.rep nonDigitCls 1 none false),
  Rx.opt (rchain [sp1, rstr "for", sp1, rstr "account", sp1,
    Rx.grp "account_number" (Rx.rep nonSpaceCls 1 none true)]),
  Rx.opt (Rx.seq sp1 (digitsGrp "recipient_phone"))]

/-- English MSHWARI pattern (src line 95):
`Ksh(?P<mshwari_amount>[\d,.]+)\stransferred\s(?P<mshwari_direction>(?:from|to))\sM-Shwari\saccount`. -/
def rxMSHWARI : Rx := rchain [rstr "Ksh", amtGrp "mshwari_amount", sp1,
  rstr "transferred", sp1,
  Rx.grp "mshwari_direction" (Rx.alt (rstr "from") (rstr "to")),
  sp1, rstr "M-Shwari", sp1, rstr "account"]

/-- English AIRTIME pattern (src line 96):
`You\sbought\sKsh(?P<airtime_amount>[\d,.]+)\sof\sairtime(?:\sfor\s(?P<airtime_phone>\d+))?`. -/
def rxAIRTIME : Rx := rchain [phrW ["You", "bought"], sp1, rstr "Ksh",
  amtGrp "airtime_amount", sp1, rstr "of", sp1, rstr "airtime",
  Rx.opt (rchain [sp1, rstr "for", sp1, digitsGrp "airtime_phone"])]

/-- English WITHDRAW pattern (src line 97):
`(?:(?:on\s[^.]+?)?\s*Withdraw\s*Ksh(?P<withdraw_amount>[\d,.]+)\sfrom\s(?P<agent_details>[^.]+))`. -/
def rxWITHDRAW : Rx := rchain [
  Rx.opt (rchain [rstr "on", sp1, Rx.rep notDotCls 1 none false]),
  spStar, rstr "Withdraw", spStar, rstr "Ksh", amtGrp "withdraw_amount",
  sp1, rstr "from", sp1, Rx.grp "agent_details" (Rx.rep notDotCls 1 none true)]

/-- English BALANCE_CHECK pattern (src line 98):
`Your\saccount\sbalance\swas:\sM-PESA\sAccount\s:\sKsh(?P<balance_amount>[\d,.]+)`. -/
def rxBALANCE_CHECK : Rx := rchain [phrW ["Your", "account", "balance", "was:"],
  sp1, rstr "M-PESA", sp1, rstr "Account", sp1, rstr ":", sp1, rstr "Ksh",
  amtGrp "balance_amount"]

/-- Swahili KUTUMA pattern (src lines 101-109). -/
def rxKUTUMA : Rx := rchain [rstr "Ksh", amtGrp "kutuma_amount", sp1,
  rstr "imetumwa", sp1, rstr "kwa", sp1,
  Rx.grp "kutuma_recipient" (Rx.rep nonDigitCls 1 none false), sp1,
  Rx.grp "kutuma_phone" (Rx.rep .digit 10 (some 10) true), sp1,
  Rx.alt (rstr "tarehe") (rstr "siku"), sp1,
  Rx.grp "kutuma_date" dateRx, sp1, rstr "saa", sp1, Rx.grp "kutuma_time" timeRx]

/-- Swahili KUPOKEA pattern (src lines 110-118). -/
def rxKUPOKEA : Rx := rchain [rstr "Umepokea", sp1, rstr "Ksh",
  amtGrp "kupokea_amount", sp1, rstr "kutoka", sp1,
  Rx.grp "kupokea_sender" (Rx.rep nonDigitCls 1 none false), sp1,
  Rx.grp "kupokea_phone" (Rx.rep .digit 10 (some 10) true), sp1,
  rstr "mnamo", sp1,
  Rx.grp "kupokea_date" dateRx, sp1, rstr "saa", sp1, Rx.grp "kupokea_time" timeRx]

/-- Swahili SALIO pattern (src lines 119-126). -/
def rxSALIO : Rx := rchain [phrW ["Baki", "yako", "ni:"], sp1,
  phrW ["Akaunti", "ya", "M-PESA", ":"], sp1, rstr "Ksh", amtGrp "salio_amount",
  sp1, Rx.alt (rstr "Tarehe") (rstr "tarehe"), sp1,
  Rx.grp "salio_date" dateRx, sp1, rstr "saa", sp1, Rx.grp "salio_time" timeRx]

/-- Swahili KULIPA_TILL pattern (src lines 127-132). -/
def rxKULIPA_TILL : Rx := rchain [rstr "Umelipa", sp1, rstr "Ksh",
  amtGrp "kulipa_amount", sp1, rstr "kwa", sp1,
  Rx.grp "kulipa_merchant" (Rx.rep nonDigitCls 1 none false), sp1,
  Rx.grp "kulipa_date" dateRx, sp1, Rx.grp "kulipa_time" timeRx]

/-- Swahili DATA pattern (src lines 133-140). -/
def rxDATA : Rx := rchain [rstr "Ksh", amtGrp "data_amount", sp1,
  phrW ["zimetumwa", "kwa", "SAFARICOM", "DATA", "BUNDLES"],
  Rx.opt (Rx.seq sp1 (phrW ["kwa", "akaunti", "SAFARICOM", "DATA", "BUNDLES"])),
  sp1, rstr "mnamo", sp1,
  Rx.grp "data_date" dateRx, sp1, rstr "saa", sp1, Rx.grp "data_time" timeRx]

/-- Swahili MJAZO pattern (src lines 141-147). -/
def rxMJAZO : Rx := rchain [rstr "Umenunua", sp1, rstr "Ksh",
  amtGrp "mjazo_amount", sp1, rstr "ya", sp1, rstr "mjazo", sp1,
  Rx.alt (rstr "siku") (rstr "tarehe"), sp1,
  Rx.grp "mjazo_date" dateRx, sp1, rstr "saa", sp1, Rx.grp "mjazo_time" timeRx]

/-- Swahili PAYBILL pattern (src lines 148-152). -/
def rxPAYBILL : Rx := rchain [rstr "Ksh", amtGrp "paybill_amount", sp1,
  rstr "imetumwa", sp1, rstr "kwa", sp1,
  Rx.grp "paybill_name" (Rx.rep notKCls 1 none false), sp1,
  phrW ["kwa", "akaunti", "nambari"], sp1, digitsGrp "paybill_account"]

/-- Swahili KUPOKEA_BANK pattern (src lines 153-160). -/
def rxKUPOKEA_BANK : Rx := rchain [rstr "Umepokea", sp1, rstr "Ksh",
  amtGrp "kupokea_bank_amount", sp1, rstr "kutoka", sp1,
  Rx.grp "kupokea_bank_name" (Rx.rep nonDigitCls 1 none false), sp1,
  digitsGrp "kupokea_bank_account", sp1, rstr "mnamo", sp1,
  Rx.grp "kupokea_bank_date" dateRx, sp1, rstr "saa", sp1,
  Rx.grp "kupokea_bank_time" timeRx]

/-- Swahili POCHI_LA_BIASHARA pattern (src lines 161-168). -/
def rxPOCHI_LA_BIASHARA : Rx := rchain [rstr "Ksh", amtGrp "pochi_amount", sp1,
  rstr "imetumwa", sp1, rstr "kwa", sp1,
  Rx.grp "pochi_recipient" (Rx.rep nonDigitCls 1 none false), sp1,
  Rx.alt (rstr "tarehe") (rstr "siku"), sp1,
  Rx.grp "pochi_date" dateRx, sp1, rstr "saa", sp1, Rx.grp "pochi_time" timeRx]

/-- The side-field scanner `mpesa_balance` (src line 173):
`Baki\s(?:yako|mpya)(?:\sya|\smpya\skatika|\skatika)\sM-PESA\sni\sKsh(?P<mpesa_balance>[\d,.]+)`. -/
def rxMpesaBalance : Rx := rchain [rstr "Baki", sp1,
  Rx.alt (rstr "yako") (rstr "mpya"),
  raltL [Rx.seq sp1 (rstr "ya"),
         rchain [sp1, rstr "mpya", sp1, rstr "katika"],
         Rx.seq sp1 (rstr "katika")],
  sp1, rstr "M-PESA", sp1, rstr "ni", sp1, rstr "Ksh", amtGrp "mpesa_balance"]

/-- The side-field scanner `transaction_cost` (src line 174):
`Gharama\sya\s(?:kutuma|kununua|matumizi|kulipa)\sni\sKsh(?P<transaction_cost>[\d,.]+)`. -/
def rxTransactionCost : Rx := rchain [rstr "Gharama", sp1, rstr "ya", sp1,
  raltL [rstr "kutuma", rstr "kununua", rstr "matumizi", rstr "kulipa"],
  sp1, rstr "ni", sp1, rstr "Ksh", amtGrp "transaction_cost"]

/-- The side-field scanner `daily_limit` (src line 175):
`Kiwango\scha\sPesa\sunachoweza\skutuma\skwa\ssiku\sni\s(?P<daily_limit>[\d,.]+)`. -/
def rxDailyLimit : Rx := rchain [
  phrW ["Kiwango", "cha", "Pesa", "unachoweza", "kutuma", "kwa", "siku", "ni"],
  sp1, amtGrp "daily_limit"]

/-- The trailing side-field part of both composite patterns (src lines
208-211): the three scanners in fixed order, each wrapped as the optional
group `(?:.*?PATTERN)?`, so each scanner skips forward from where the
previous one stopped. -/
def additionalPart : Rx := rchain [
  Rx.opt (Rx.seq dotLazy rxMpesaBalance),
  Rx.opt (Rx.seq dotLazy rxTransactionCost),
  Rx.opt (Rx.seq dotLazy rxDailyLimit)]

/-- The two supported languages. -/
inductive Lang where
  | ENGLISH
  | SWAHILI
deriving DecidableEq

/-- The optional fragment `\.?`. -/
def dotOpt : Rx := Rx.rep (.lit '.') 0 (some 1) true

/-- The per-language header pattern (src lines 85-88):
English `(?P<transaction_id>[A-Z0-9]{10})\s+[Cc]onfirmed\.?\s*`,
Swahili `(?P<transaction_id>[A-Z0-9]{10})\s+Imethibitishwa\.?\s*`. -/
def basePattern : Lang → Rx
  | .ENGLISH => rchain [Rx.grp "transaction_id" (Rx.rep upperAlnumCls 10 (some 10) true),
      spPlus, Rx.atom ccCls, rstr "onfirmed", dotOpt, spStar]
  | .SWAHILI => rchain [Rx.grp "transaction_id" (Rx.rep upperAlnumCls 10 (some 10) true),
      spPlus, rstr "Imethibitishwa", dotOpt, spStar]

/-- The per-language category alternation (src lines 203-206), each category
wrapped in a named group `(?P<NAME>...)`, in the declaration order of the
`transaction_patterns` dictionaries. -/
def categoryAlt : Lang → Rx
  | .ENGLISH => raltL [
      Rx.grp "RECEIVED" rxRECEIVED,
      Rx.grp "PAID" rxPAID,
      Rx.grp "SENT" rxSENT,
      Rx.grp "MSHWARI" rxMSHWARI,
      Rx.grp "AIRTIME" rxAIRTIME,
      Rx.grp "WITHDRAW" rxWITHDRAW,
      Rx.grp "BALANCE_CHECK" rxBALANCE_CHECK]
  | .SWAHILI => raltL [
      Rx.grp "KUTUMA" rxKUTUMA,
      Rx.grp "KUPOKEA" rxKUPOKEA,
      Rx.grp "SALIO" rxSALIO,
      Rx.grp "KULIPA_TILL" rxKULIPA_TILL,
      Rx.grp "DATA" rxDATA,
      Rx.grp "MJAZO" rxMJAZO,
      Rx.grp "PAYBILL" rxPAYBILL,
      Rx.grp "KUPOKEA_BANK" rxKUPOKEA_BANK,
      Rx.grp "POCHI_LA_BIASHARA" rxPOCHI_LA_BIASHARA]

/-- The composite matcher per language (src lines 213-219):
`(?:BASE)?(CATEGORY_ALTERNATION)ADDITIONAL`, compiled with
`re.IGNORECASE | re.DOTALL`.  The unnamed wrapping group around the
alternation has no effect on `groupdict()` and is not represented. -/
def compiledPattern (l : Lang) : Rx :=
  rchain [Rx.opt (basePattern l), categoryAlt l, additionalPart]

/-- The English failure detector (src lines 179-190): the literal
`Failed\.\s` followed by one of seven decline phrases.  It is compiled with
no flags, hence case-sensitive. -/
def failedEnglish : Rx := rchain [rstr "Failed", Rx.atom (.lit '.'), sp1,
  raltL [
    phrW ["You", "do", "not", "have", "enough", "money"],
    phrW ["Insufficient", "funds", "in", "your", "M-PESA", "account"],
    phrW ["You", "have", "insufficient", "funds"],
    phrW ["Insufficient", "funds", "in", "your", "M-PESA", "account", "as",
          "well", "as", "Fuliza", "M-PESA"],
    phrW ["You", "have", "insufficient", "funds", "in", "your", "M-Shwari",
          "account"],
    phrW ["You", "have", "reached", "your", "Fuliza", "M-PESA", "limit"],
    phrW ["Your", "Fuliza", "M-PESA", "limit", "is", "not", "available", "at",
          "this", "time"]]]

/-- The Swahili failure detector (src lines 191-198), also case-sensitive. -/
def failedSwahili : Rx := raltL [
  phrW ["Hakuna", "pesa", "za", "kutosha"],
  rstr "Imefeli",
  phrW ["Umekataa", "kuidhinisha", "amali"],
  phrW ["Huduma", "hi", "haipatikani"]]

/-- The per-language failure detector. -/
def failedPattern : Lang → Rx
  | .ENGLISH => failedEnglish
  | .SWAHILI => failedSwahili

/-- Substring occurrence on character lists: the needle occurs as a prefix of
some suffix of the haystack. -/
def containsSub (needle : List Char) : List Char → Bool
  | [] => needle.isEmpty
  | c :: t => needle.isPrefixOf (c :: t) || containsSub needle t

/-- Python substring membership `needle in hay` on strings. -/
def pyContains (needle hay : String) : Bool := containsSub needle.data hay.data

/-- The language classifier (src line 237):
`'ENGLISH' if 'Confirmed' in message or 'confirmed' in message else 'SWAHILI'`.
Note that only the two exact spellings are tested, not arbitrary casings. -/
def detectLanguage (msg : String) : Lang :=
  if pyContains "Confirmed" msg || pyContains "confirmed" msg then .ENGLISH
  else .SWAHILI

/-- Exceptions that can escape the modelled code paths: `AttributeError`
(attribute access on a missing attribute) and `ValueError` (failed `float()`
conversion). -/
inductive PyExn where
  | attributeError (attr : String)
  | valueError
deriving DecidableEq

/-- Argument passed to `parse_message`: a string, or any non-string value
(only its non-string-ness is observable, via the `isinstance` check at
src line 233). -/
inductive PyInput where
  | str (s : String)
  | nonStr
deriving DecidableEq

/-- Outcome of a `parse_message` call: a returned dictionary (every value a
string on all reachable return paths) or an uncaught exception. -/
inductive ParseResult where
  | ret (d : List (String × String))
  | raised (e : PyExn)
deriving DecidableEq

/-- The parse orchestrator `DualMPESAParser.parse_message` (src lines
231-295).

* Non-string input returns `{"error": "Message must be a string"}` (line 234).
* The language is classified (line 237) and that language's failure detector
  is searched (line 240); a hit returns the FAILED dictionary of lines
  242-246, whose reason is `group(0)` of the failure match.
* Otherwise the language's composite pattern is searched (line 249); no match
  returns `{"error": "Message format not recognized"}` (line 251).
* On a composite match, lines 253-263 build and trim a local result
  dictionary, and line 264 then evaluates `self.transaction_patterns`.
  `_compile_patterns` stores `self.compiled_patterns` and
  `self.failed_patterns` (lines 221-222) but never assigns
  `self.transaction_patterns` (the dictionary of line 90 stays local), so
  line 264 raises `AttributeError` on every call that reaches it, discarding
  the local dictionary; lines 265-295 are unreachable. -/
def parse_message (m : PyInput) : ParseResult :=
  match m with
  | .nonStr => .ret [("error", "Message must be a string")]
  | .str msg =>
    let lang := detectLanguage msg
    match searchFrom false (failedPattern lang) msg.data with
    | some p => .ret [("status", "FAILED"), ("reason", String.mk p.1),
                      ("original_message", msg)]
    | none =>
      match searchFrom true (compiledPattern lang) msg.data with
      | none => .ret [("error", "Message format not recognized")]
      | some _ => .raised (.attributeError "transaction_patterns")

/-- Remove every occurrence of a character, modelling `str.replace(c, '')`. -/
def removeChar (c : Char) (s : List Char) : List Char :=
  s.filter (fun a => !(a == c))

/-- Python `str.strip()`: drop whitespace from both ends. -/
def pyStrip (s : List Char) : List Char :=
  ((s.dropWhile isWsChar).reverse.dropWhile isWsChar).reverse

/-- Python `str.rstrip('.')`: drop every trailing dot. -/
def rstripDot (s : List Char) : List Char :=
  (s.reverse.dropWhile (fun c => c == '.')).reverse

/-- Numeric value of a digit run. -/
def digitsToNat (ds : List Char) : Nat :=
  ds.foldl (fun n c => n * 10 + (c.toNat - '0'.toNat)) 0

/-- Exponent suffix of a float literal: optional sign, mandatory digits, then
end of string; scales the mantissa by the signed power of ten.  The value is
kept as an exact scaled integer `(n, k)` denoting `n / 10^k`. -/
def pyFloatExp (n : Int) (k : Nat) (r : List Char) : Option (Int × Nat) :=
  let se : Bool × List Char :=
    match r with
    | '+' :: r2 => (false, r2)
    | '-' :: r2 => (true, r2)
    | r2 => (false, r2)
  let ds := se.2.takeWhile Char.isDigit
  if ds.isEmpty then none
  else if (se.2.dropWhile Char.isDigit).isEmpty then
    if se.1 then some (n, k + digitsToNat ds)
    else some (n * (10 : Int) ^ digitsToNat ds, k)
  else none

/-- The builtin `float(s)` on strings: optional surrounding whitespace, an
optional sign, a mantissa that is `digits`, `digits.digits`, `digits.`, or
`.digits`, and an optional exponent `e`/`E` with optional sign and mandatory
digits.  Anything else (in particular the empty string) fails, modelled as
`none`.  The resulting value is represented exactly as a pair `(n, k)`
denoting the rational `n / 10^k` (interpreted by `pfToQ`).  CPython
additionally accepts `inf`/`nan` spellings and underscore digit separators,
and rounds the value to binary floating point; no statement in this file
evaluates `pyFloat` on such inputs or on values where the rounding is
observable (every compared value is exactly representable in binary). -/
def pyFloat (s : List Char) : Option (Int × Nat) :=
  let t := pyStrip s
  let sgn : Bool × List Char :=
    match t with
    | '+' :: r => (false, r)
    | '-' :: r => (true, r)
    | r => (false, r)
  let ip := sgn.2.takeWhile Char.isDigit
  let s2 := sgn.2.dropWhile Char.isDigit
  let fpart : Option (List Char) × List Char :=
    match s2 with
    | '.' :: r => (some (r.takeWhile Char.isDigit), r.dropWhile Char.isDigit)
    | r => (none, r)
  let fracDigits := (fpart.1).getD []
  if ip.isEmpty && fracDigits.isEmpty then none
  else
    let mag : Nat := digitsToNat ip * 10 ^ fracDigits.length + digitsToNat fracDigits
    let n : Int := if sgn.1 then -(mag : Int) else (mag : Int)
    match fpart.2 with
    | [] => some (n, fracDigits.length)
    | 'e' :: r => pyFloatExp n fracDigits.length r
    | 'E' :: r => pyFloatExp n fracDigits.length r
    | _ => none

/-- Rational value denoted by a scaled-integer float representation. -/
def pfToQ (p : Int × Nat) : ℚ := (p.1 : ℚ) / (10 : ℚ) ^ p.2

deriving instance DecidableEq for Except

/-- `DualMPESAParser.clean_amount` (src lines 224-229): the empty string
returns `0.0` immediately; otherwise commas, then spaces, are removed, the
ends are stripped of whitespace, trailing dots are stripped, and the result
is passed to `float()`, whose failure raises an uncaught `ValueError`.  The
declared `NumericConversionError` (src lines 33-35) is never raised. -/
def clean_amount (s : String) : Except PyExn (Int × Nat) :=
  if s = "" then .ok (0, 0)
  else
    match pyFloat (rstripDot (pyStrip (removeChar ' ' (removeChar ',' s.data)))) with
    | some q => .ok q
    | none => .error .valueError

/-! Helper lemmas. -/

theorem containsSub_iff (n : List Char) : ∀ h : List Char,
    containsSub n h = true ↔ n <:+: h
  | [] => by
    simp [containsSub, List.isEmpty_iff, List.infix_nil]
  | c :: t => by
    rw [containsSub, Bool.or_eq_true, List.isPrefixOf_iff_prefix,
      containsSub_iff n t, List.infix_cons_iff]

theorem dropWhile_all_false {p : Char → Bool} (l : List Char)
    (h : ∀ c ∈ l, p c = false) : l.dropWhile p = l := by
  cases l with
  | nil => rfl
  | cons c t =>
    rw [List.dropWhile_cons, h c (List.mem_cons_self c t)]
    simp

theorem dropWhile_all_true {p : Char → Bool} : ∀ l : List Char,
    (∀ c ∈ l, p c = true) → l.dropWhile p = []
  | [], _ => rfl
  | c :: t, h => by
    rw [List.dropWhile_cons, h c (List.mem_cons_self c t), if_pos rfl]
    exact dropWhile_all_true t (fun a ha => h a (List.mem_cons_of_mem c ha))

theorem pyStrip_of_no_ws (l : List Char) (h : ∀ c ∈ l, isWsChar c = false) :
    pyStrip l = l := by
  unfold pyStrip
  rw [dropWhile_all_false l h,
    dropWhile_all_false l.reverse (fun c hc => h c (List.mem_reverse.mp hc)),
    List.reverse_reverse]

theorem rstripDot_all_dots (l : List Char) (h : ∀ c ∈ l, c = '.') :
    rstripDot l = [] := by
  unfold rstripDot
  rw [dropWhile_all_true l.reverse
    (fun c hc => by rw [h c (List.mem_reverse.mp hc)]; rfl)]
  rfl

/-! Concrete messages used by the claims. -/

/-- A well-formed English "received" message. -/
def msgC1 : String :=
  "ABC1234567 Confirmed. You have received Ksh1,000 from JOHN DOE 254712345678"

/-- A well-formed English "paid" message. -/
def msgC2 : String := "XYZ9876543 Confirmed. Ksh250 paid to SUPERMARKET."

/-- A well-formed Swahili "kutuma" message carrying date and time captures. -/
def msgC3 : String :=
  "Ksh500 imetumwa kwa JOHN DOE 0712345678 tarehe 05/03/24 saa 2:15 PM"

/-- A message containing the token "confirmed" in upper case only. -/
def msgC4 : String := "QQQ CONFIRMED gift"

/-- A message containing both an English decline phrase (with its required
prefix) and a well-formed "received" category shape with an amount. -/
def msgC5 : String :=
  "ABC1234567 Confirmed. Failed. You have insufficient funds. You have received Ksh1,000 from JOHN DOE 254712345678"

/-- A Swahili "kutuma" message whose transaction-cost phrase textually
precedes its balance phrase. -/
def msgC8 : String :=
  "Ksh500 imetumwa kwa JOHN DOE 0712345678 tarehe 05/03/24 saa 2:15 PM Gharama ya kutuma ni Ksh23. Baki yako ya M-PESA ni Ksh1,000"

/-- An English-classified message containing a decline phrase without the
literal prefix required by the failure detector. -/
def msgC9a : String := "ABC1234567 Confirmed. You have insufficient funds"

/-- An English-classified message containing the decline prefix in a
different letter casing. -/
def msgC9b : String := "ABC1234567 Confirmed. FAILED. You have insufficient funds"

/-- An English decline message lacking the language marker, hence classified
Swahili. -/
def msgC10 : String := "Failed. You have insufficient funds"

/-- A marked (English-classified) message containing a Swahili decline
phrase. -/
def msgC10b : String := "QQQ1234567 Confirmed. Imefeli"

/-! Claim theorems. -/

/-- C1.  The claim states that a valid English "received" message parses to a
Success record with kind, amount, sender name, and sender phone populated.
On such a message the composite pattern does match (the RECEIVED group
fires), but `parse_message` then evaluates `self.transaction_patterns`
(src line 264), an attribute `_compile_patterns` never assigns, so the call
raises an uncaught `AttributeError` instead of returning a record. -/
theorem claim1_received_message_raises :
    detectLanguage msgC1 = .ENGLISH ∧
    capOf (searchFrom true (compiledPattern .ENGLISH) msgC1.data) "RECEIVED" ≠ none ∧
    parse_message (.str msgC1) = .raised (.attributeError "transaction_patterns") := by
  decide

/-- C2.  The claim states that every error condition is returned as an
explicit result value and `parse_message` never terminates by an uncaught
fault.  On a well-formed "paid" message the composite pattern matches and
src line 264 raises an uncaught `AttributeError`, so the claim fails. -/
theorem claim2_uncaught_fault_exists :
    parse_message (.str msgC2) = .raised (.attributeError "transaction_patterns") := by
  decide

/-- C3.  The claim states that when both a date and a time capture are
present, `parse_message` assembles a timestamp (and drops it silently when
unparseable).  On a Swahili "kutuma" message both captures are present
(`kutuma_date`, `kutuma_time`), yet `parse_message` raises `AttributeError`
at src line 264 before the timestamp code; moreover the timestamp guard at
src line 286 tests the keys `date` and `time`, which no pattern of the
grammar defines, so the assembly branch is unreachable even without the
missing attribute. -/
theorem claim3_timestamp_never_assembled :
    capOf (searchFrom true (compiledPattern .SWAHILI) msgC3.data) "kutuma_date" =
      some "05/03/24".data ∧
    capOf (searchFrom true (compiledPattern .SWAHILI) msgC3.data) "kutuma_time" =
      some "2:15 PM".data ∧
    capOf (searchFrom true (compiledPattern .SWAHILI) msgC3.data) "date" = none ∧
    capOf (searchFrom true (compiledPattern .SWAHILI) msgC3.data) "time" = none ∧
    parse_message (.str msgC3) = .raised (.attributeError "transaction_patterns") := by
  decide

/-- C4, counterexample.  The claim states that a message containing the
token "confirmed" in any letter casing is classified English.  The message
`QQQ CONFIRMED gift` contains the token in upper case (its lower-casing
contains "confirmed"), yet the classifier yields Swahili, because src line
237 tests only the two exact spellings `Confirmed` and `confirmed`. -/
theorem claim4_counterexample :
    pyContains "confirmed" (String.mk (msgC4.data.map Char.toLower)) = true ∧
    detectLanguage msgC4 = .SWAHILI := by
  decide

/-- C4, amended.  The classifier is a total deterministic function that
classifies a message as English exactly when it contains the exact substring
`Confirmed` or the exact substring `confirmed`; every other message
(including ones containing other casings such as `CONFIRMED`) is classified
Swahili. -/
theorem claim4_amended_classifier (msg : String) :
    detectLanguage msg = .ENGLISH ↔
      ("Confirmed".data <:+: msg.data ∨ "confirmed".data <:+: msg.data) := by
  have key : (pyContains "Confirmed" msg || pyContains "confirmed" msg) = true ↔
      ("Confirmed".data <:+: msg.data ∨ "confirmed".data <:+: msg.data) := by
    rw [Bool.or_eq_true]
    unfold pyContains
    rw [containsSub_iff, containsSub_iff]
  constructor
  · intro he
    by_cases hb : (pyContains "Confirmed" msg || pyContains "confirmed" msg) = true
    · exact key.mp hb
    · exfalso
      unfold detectLanguage at he
      rw [if_neg hb] at he
      exact absurd he (by decide)
  · intro hd
    unfold detectLanguage
    rw [if_pos (key.mpr hd)]

/-- C4, witness: the amended classification applied to a concrete marked
message. -/
theorem claim4_witness : detectLanguage "a Confirmed b" = .ENGLISH :=
  (claim4_amended_classifier "a Confirmed b").mpr
    (Or.inl ((containsSub_iff "Confirmed".data "a Confirmed b".data).mp (by decide)))

/-- C5.  Decline detection takes priority over category matching: whenever
the failure detector of the classified language matches (with `group(0)`
equal to `g0`), `parse_message` returns the Failed record carrying exactly
the matched decline substring as reason and the raw message, populating no
kind, amount, or other extracted field — the composite category matcher is
never consulted. -/
theorem claim5_decline_priority (msg : String) (g0 : List Char) (caps : Caps)
    (h : searchFrom false (failedPattern (detectLanguage msg)) msg.data =
      some (g0, caps)) :
    parse_message (.str msg) =
      .ret [("status", "FAILED"), ("reason", String.mk g0),
            ("original_message", msg)] := by
  simp only [parse_message, h]

/-- C5, witness: a message containing both a recognized decline phrase and a
well-formed "received" category shape (the composite matcher does match it)
parses to the Failed record with the exact matched substring as reason. -/
theorem claim5_witness :
    searchFrom true (compiledPattern .ENGLISH) msgC5.data ≠ none ∧
    parse_message (.str msgC5) =
      .ret [("status", "FAILED"), ("reason", "Failed. You have insufficient funds"),
            ("original_message", msgC5)] := by
  refine ⟨by decide, ?_⟩
  have h : searchFrom false (failedPattern (detectLanguage msgC5)) msgC5.data =
      some ("Failed. You have insufficient funds".data, []) := by decide
  exact claim5_decline_priority msgC5 "Failed. You have insufficient funds".data [] h

/-- C6, counterexample.  The claim states that every string consisting only
of separator characters cleans to `0.0` and that non-numeric residue fails
with a NumericConversion error.  The all-separator string `","` cleans to
the empty string, and `float("")` raises the builtin `ValueError` (not the
never-raised `NumericConversionError`), so the call raises instead of
returning `0.0`. -/
theorem claim6_counterexample : clean_amount "," = .error .valueError := by
  decide

/-- C6, amended.  `clean_amount` maps `"1,234.50"` to 1234.50, `"0"` and the
empty string to 0, and re-cleaning the decimal rendering of a cleaned value
(`"1234.5"`, `"0.0"`) preserves the value; but every nonempty string of
separator characters, and every string with non-numeric residue after
cleaning, raises the builtin `ValueError` uncaught (the declared
`NumericConversionError` is never raised) rather than returning a value. -/
theorem claim6_amended :
    (∀ s : String, s ≠ "" → (∀ c ∈ s.data, c = ',' ∨ c = ' ' ∨ c = '.') →
      clean_amount s = .error .valueError) ∧
    clean_amount "1,234.50" = .ok (123450, 2) ∧ pfToQ (123450, 2) = 1234.50 ∧
    clean_amount "0" = .ok (0, 0) ∧ pfToQ (0, 0) = 0 ∧
    clean_amount "" = .ok (0, 0) ∧
    clean_amount "12a3" = .error .valueError ∧
    clean_amount "1234.5" = .ok (12345, 1) ∧ pfToQ (12345, 1) = pfToQ (123450, 2) ∧
    clean_amount "0.0" = .ok (0, 1) ∧ pfToQ (0, 1) = pfToQ (0, 0) := by
  refine ⟨?_, by decide, by norm_num [pfToQ], by decide, by norm_num [pfToQ],
    by decide, by decide, by decide, by norm_num [pfToQ], by decide,
    by norm_num [pfToQ]⟩
  intro s h0 h
  have hr : ∀ c ∈ removeChar ' ' (removeChar ',' s.data), c = '.' := by
    intro c hc
    unfold removeChar at hc
    rw [List.mem_filter] at hc
    obtain ⟨hc1, hc2⟩ := hc
    rw [List.mem_filter] at hc1
    obtain ⟨hmem, hne1⟩ := hc1
    rcases h c hmem with h1 | h1 | h1
    · rw [h1] at hne1; exact absurd hne1 (by decide)
    · rw [h1] at hc2; exact absurd hc2 (by decide)
    · exact h1
  have e2 : pyStrip (removeChar ' ' (removeChar ',' s.data)) =
      removeChar ' ' (removeChar ',' s.data) :=
    pyStrip_of_no_ws _ (fun c hc => by rw [hr c hc]; rfl)
  have e3 : rstripDot (removeChar ' ' (removeChar ',' s.data)) = [] :=
    rstripDot_all_dots _ hr
  unfold clean_amount
  rw [if_neg h0, e2, e3]
  rfl

/-- C6, witness: the all-separator clause of the amended claim applied to
the concrete input `",,."`. -/
theorem claim6_witness : clean_amount ",,." = .error .valueError :=
  claim6_amended.1 ",,." (by decide) (by decide)

/-- C7.  Invariant of the Failed outcome: every returned dictionary whose
status is FAILED is exactly the three-entry record of src lines 242-246 —
the decline reason and the original raw message — with kind, amount, and
every optional field absent. -/
theorem claim7_failed_record_shape (v : PyInput) (d : List (String × String))
    (h : parse_message v = .ret d)
    (hs : d.lookup "status" = some "FAILED") :
    ∃ msg reason, v = .str msg ∧
      d = [("status", "FAILED"), ("reason", reason), ("original_message", msg)] := by
  cases v with
  | nonStr =>
    have e : parse_message .nonStr = .ret [("error", "Message must be a string")] := rfl
    rw [e] at h
    injection h with h2
    rw [← h2] at hs
    exact absurd hs (by decide)
  | str msg =>
    cases hfs : searchFrom false (failedPattern (detectLanguage msg)) msg.data with
    | some p =>
      simp only [parse_message, hfs] at h
      injection h with h2
      exact ⟨msg, String.mk p.1, rfl, h2.symm⟩
    | none =>
      cases hcs : searchFrom true (compiledPattern (detectLanguage msg)) msg.data with
      | none =>
        simp only [parse_message, hfs, hcs] at h
        injection h with h2
        rw [← h2] at hs
        exact absurd hs (by decide)
      | some q =>
        simp only [parse_message, hfs, hcs] at h
        exact absurd h (by simp)

/-- C7, witness: the invariant applied to the Failed record of a concrete
Swahili decline message. -/
theorem claim7_witness :
    ∃ msg reason, PyInput.str "Imefeli leo" = .str msg ∧
      [("status", "FAILED"), ("reason", "Imefeli"),
       ("original_message", "Imefeli leo")] =
        [("status", "FAILED"), ("reason", reason), ("original_message", msg)] :=
  claim7_failed_record_shape (.str "Imefeli leo")
    [("status", "FAILED"), ("reason", "Imefeli"), ("original_message", "Imefeli leo")]
    (by decide) (by decide)

/-- C8.  The three side-field scanners run in fixed order with an advancing
cursor.  In `msgC8` the transaction-cost phrase textually precedes the
balance phrase; the balance scanner (first in order) skips forward past the
cost phrase to its own match, so the cost scanner — although its pattern
matches the message on its own — finds nothing in the remaining text and the
cost is not captured, while the category (KUTUMA) and the balance still
match. -/
theorem claim8_scanner_order_skips_earlier_field :
    capOf (searchFrom true (compiledPattern .SWAHILI) msgC8.data) "mpesa_balance" =
      some "1,000".data ∧
    capOf (searchFrom true (compiledPattern .SWAHILI) msgC8.data) "transaction_cost" =
      none ∧
    capOf (searchFrom true (compiledPattern .SWAHILI) msgC8.data) "KUTUMA" ≠ none ∧
    searchFrom true rxTransactionCost msgC8.data =
      some ("Gharama ya kutuma ni Ksh23.".data, [("transaction_cost", "23.".data)]) := by
  decide

/-- C9.  English decline detection requires the case-sensitive literal
`Failed. ` before a listed phrase: a message with the phrase alone, or with
the prefix in a different casing, is not classified Failed (it falls through
to "format not recognized"), while the same phrase with the exact prefix is
matched, and the category matcher by contrast matches case-insensitively. -/
theorem claim9_decline_prefix_case_sensitive :
    searchFrom false failedEnglish msgC9a.data = none ∧
    parse_message (.str msgC9a) = .ret [("error", "Message format not recognized")] ∧
    searchFrom false failedEnglish msgC9b.data = none ∧
    parse_message (.str msgC9b) = .ret [("error", "Message format not recognized")] ∧
    searchFrom false failedEnglish "Failed. You do not have enough money".data =
      some ("Failed. You do not have enough money".data, []) ∧
    searchFrom true (compiledPattern .ENGLISH)
      "you have received ksh50 from x 9".data ≠ none := by
  exact ⟨by decide, by decide, by decide, by decide, by decide, by decide⟩

/-- C10.  Failure detection is gated by language classification: a message
classified Swahili is only ever checked against the Swahili decline
patterns, so when those find nothing the parse can never return a FAILED
record — even when, as for `msgC10`, the English decline detector would
match the message.  Conversely the marked message `msgC10b` containing the
Swahili phrase `Imefeli` is checked only against the English patterns and is
not classified Failed. -/
theorem claim10_language_gated_failure :
    (∀ msg : String, detectLanguage msg = .SWAHILI →
      searchFrom false failedSwahili msg.data = none →
      ∀ d : List (String × String), parse_message (.str msg) = .ret d →
        d.lookup "status" ≠ some "FAILED") ∧
    detectLanguage msgC10 = .SWAHILI ∧
    searchFrom false failedEnglish msgC10.data = some (msgC10.data, []) ∧
    parse_message (.str msgC10) = .ret [("error", "Message format not recognized")] ∧
    detectLanguage msgC10b = .ENGLISH ∧
    searchFrom false failedSwahili msgC10b.data = some ("Imefeli".data, []) ∧
    parse_message (.str msgC10b) = .ret [("error", "Message format not recognized")] := by
  refine ⟨?_, by decide, by decide, by decide, by decide, by decide, by decide⟩
  intro msg hlang hfail d h
  simp only [parse_message, hlang, failedPattern, hfail] at h
  cases hcs : searchFrom true (compiledPattern .SWAHILI) msg.data with
  | none =>
    rw [hcs] at h
    injection h with h2
    rw [← h2]
    decide
  | some q =>
    rw [hcs] at h
    exact absurd h (by simp)

/-- C10, witness: the gating applied to the concrete unmarked English
decline message `msgC10`. -/
theorem claim10_witness :
    ([("error", "Message format not recognized")] : List (String × String)).lookup
      "status" ≠ some "FAILED" :=
  claim10_language_gated_failure.1 msgC10 (by decide) (by decide)
    [("error", "Message format not recognized")] (by decide)

end MpesaTool
